import Mathlib

/-!
Shallow embedding of the trunking-receiver core of `src/src/recv.rs`
(struct `P25Receiver` and its methods).  The physical-layer decoder and
the message/field types of the external `p25` crate are out of scope of
the repository; they are modelled from the spec at the interface
boundary (§3, §4.2, §6 of the spec), faithful to how `recv.rs` consumes
them.  Outbound `Sender::send` calls are modelled as an ordered list of
`Output` events; the decoder-resynchronization side effect
(`self.msg.recv.resync()`) is modelled as the `Output.resync` event.
-/

namespace P25Rx

/-- Modelled from the spec: a talkgroup is either the default/unassigned
variant or a concrete numeric group identifier (`TalkGroup` of the
external `p25` crate; `recv.rs` only distinguishes `Other(x)` from the
rest). -/
inductive TalkGroup
  | Default
  | Other (x : Nat)
  deriving DecidableEq, Repr

/-- Modelled from the spec: a crypto algorithm tag distinguishing
"unencrypted" from the encrypted algorithm variants (`CryptoAlgorithm`
of the external `p25` crate; `recv.rs` only distinguishes `Unencrypted`
from the rest). -/
inductive CryptoAlgorithm
  | Unencrypted
  | Encrypted (tag : Nat)
  deriving DecidableEq, Repr

/-- Modelled from the spec: a logical channel, identified by a table
index `id` and an offset `number` (`Channel` of the external `p25`
crate, accessed in `recv.rs` via `ch.id()` and `ch.number()`). -/
structure Channel where
  id : Nat
  number : Nat
  deriving DecidableEq, Repr

/-- Modelled from the spec: per-table-entry data sufficient to compute a
receive frequency given an offset number (`ChannelParams` of the
external `p25` crate). -/
structure ChannelParams where
  base : Nat
  spacing : Nat
  deriving DecidableEq, Repr

/-- Modelled from the spec: the receive-frequency computation
`p.rx_freq(ch.number())` of the external `p25` crate: the frequency
implied by the parameters and the requested offset number. -/
def ChannelParams.rx_freq (p : ChannelParams) (n : Nat) : Nat :=
  p.base + p.spacing * n

/-- Modelled from the spec: the NID data units (`DataUnit` of the
external `p25` crate); `recv.rs` matches only the two voice-terminator
variants and ignores the rest. -/
inductive DataUnit
  | VoiceHeader
  | VoiceSimpleTerminator
  | VoiceLCTerminator
  | VoiceLCFrameGroup
  | VoiceCCFrameGroup
  | DataPacket
  | TrunkingSignaling
  deriving DecidableEq, Repr

/-- Modelled from the spec: trunking-signaling opcodes (`TSBKOpcode` of
the external `p25` crate); `recv.rs` acts on `GroupVoiceUpdate` and
`ChannelParamsUpdate` and ignores every other recognized opcode. -/
inductive TSBKOpcode
  | GroupVoiceUpdate
  | ChannelParamsUpdate
  | OtherOpcode (code : Nat)
  deriving DecidableEq, Repr

/-- Modelled from the spec: the payload of a trunking control block,
represented by its decodings under the two field decoders `recv.rs`
applies to it (`fields::GroupTrafficUpdate::new(payload).updates()` and
`fields::ChannelParamsUpdate::new(payload)` with its `id()`/`params()`
accessors, all of the external `p25` crate). -/
structure Payload where
  updates : List (Channel × TalkGroup)
  cpId : Nat
  cpParams : ChannelParams
  deriving DecidableEq, Repr

/-- Modelled from the spec: a trunking control block (`TSBK` of the
external `p25` crate) as consumed by `recv.rs`: manufacturer code
`mfg()`, integrity bit `crc_valid()`, recognized opcode `opcode()`, and
the payload. -/
structure Tsbk where
  mfg : Nat
  crc_valid : Bool
  opcode : Option TSBKOpcode
  payload : Payload
  deriving DecidableEq, Repr

/-- Modelled from the spec: the decoded message events yielded by the
external decoder (`MessageEvent` of the `p25` crate), with each variant
carrying exactly what `recv.rs` reads from it (voice headers and crypto
control blocks are read only through their crypto-algorithm field). -/
inductive MessageEvent
  | Error (e : Nat)
  | PacketNID (du : DataUnit)
  | VoiceHeader (alg : CryptoAlgorithm)
  | LinkControl (lc : Nat)
  | CryptoControl (alg : CryptoAlgorithm)
  | LowSpeedDataFragment (d : Nat)
  | VoiceFrame (vf : Nat)
  | TrunkingControl (tsbk : Tsbk)
  | VoiceTerm (vt : Nat)
  deriving DecidableEq, Repr

/-- One outbound side effect of the receiver: a `send` on one of the
three notification channels (`ui`, `sdr`, `audio` in `recv.rs`), or a
forced decoder resynchronization (`self.msg.recv.resync()`). -/
inductive Output
  | uiSetFreq (freq : Nat)
  | sdrSetFreq (freq : Nat)
  | uiSetTalkGroup (tg : TalkGroup)
  | audioEndTransmission
  | audioVoiceFrame (vf : Nat)
  | resync
  deriving DecidableEq, Repr

/-- Modelled from the spec: the fixed size of the channel parameter
table (`ChannelParamsMap` of the external `p25` crate; the spec fixes
the range at construction). -/
def chanCount : Nat := 16

/-- The mutable state of `P25Receiver` (recv.rs lines 56-66) as far as
the decision logic reads or writes it: `control_freq`, the channel
parameter table `channels`, `cur_talkgroup`, and the `encrypted` group
set.  The channel senders and the decoder are modelled as outputs. -/
structure RxState where
  control_freq : Nat
  channels : List (Option ChannelParams)
  cur_talkgroup : TalkGroup
  encrypted : Finset Nat
  deriving DecidableEq

/-- Constructor `P25Receiver::new`: control frequency 0, empty channel
table, default talkgroup, empty encrypted set. -/
def P25Receiver.new : RxState :=
  { control_freq := 0
    channels := List.replicate chanCount none
    cur_talkgroup := TalkGroup.Default
    encrypted := ∅ }

/-- Method `P25Receiver::set_freq`: send `SetFreq` to the UI channel
then to the SDR controller channel. -/
def set_freq (freq : Nat) : List Output :=
  [Output.uiSetFreq freq, Output.sdrSetFreq freq]

/-- Method `P25Receiver::switch_control`: `set_freq` with the stored
control frequency. -/
def switch_control (s : RxState) : List Output :=
  set_freq s.control_freq

/-- Method `P25Receiver::handle_crypto`: return immediately on `Unencrypted`;
otherwise switch to control, resync, and if the current talkgroup is
concrete insert it into the encrypted set. -/
def handle_crypto (s : RxState) (alg : CryptoAlgorithm) :
    RxState × List Output :=
  match alg with
  | CryptoAlgorithm.Unencrypted => (s, [])
  | CryptoAlgorithm.Encrypted _ =>
    let out := switch_control s ++ [Output.resync]
    match s.cur_talkgroup with
    | TalkGroup.Other x => ({ s with encrypted := insert x s.encrypted }, out)
    | _ => (s, out)

/-- The guard `if let TalkGroup::Other(x) = tg { if self.encrypted.contains(&x) }`
at the top of `P25Receiver::use_talkgroup`. -/
def encCheck (s : RxState) (tg : TalkGroup) : Bool :=
  match tg with
  | TalkGroup.Other x => decide (x ∈ s.encrypted)
  | _ => false

/-- The channel-table lookup inlined in `use_talkgroup` (and named
`lookup_frequency` in spec §4.2): the computed receive frequency if the
entry at `ch.id` is present, failure otherwise. -/
def lookup_frequency (s : RxState) (ch : Channel) : Option Nat :=
  match s.channels.getD ch.id none with
  | some p => some (p.rx_freq ch.number)
  | none => none

/-- Method `P25Receiver::use_talkgroup`: fail if the talkgroup is concrete and
already known encrypted; fail if the channel's table entry is absent;
otherwise set `cur_talkgroup`, retune (`set_freq`), notify the UI of the
talkgroup, and report success.  Result: (new state, outputs, return
value). -/
def use_talkgroup (s : RxState) (tg : TalkGroup) (ch : Channel) :
    RxState × List Output × Bool :=
  if encCheck s tg then (s, [], false)
  else
    match s.channels.getD ch.id none with
    | none => (s, [], false)
    | some p =>
      ({ s with cur_talkgroup := tg },
       set_freq (p.rx_freq ch.number) ++ [Output.uiSetTalkGroup tg], true)

/-- Which of the three short-circuiting validation checks of the
`TrunkingControl` arm of `handle_sample` (recv.rs lines 145-156) fires:
non-zero manufacturer code first, then failed integrity check, then
unrecognized opcode; otherwise the recognized opcode is accepted. -/
inductive TsbkCheck
  | rejectMfg
  | rejectCrc
  | rejectOpcode
  | accepted (op : TSBKOpcode)
  deriving DecidableEq, Repr

/-- The validation prefix of the `TrunkingControl` arm, transcribed from
the three early returns of recv.rs lines 145-156 in source order. -/
def validate (t : Tsbk) : TsbkCheck :=
  if t.mfg ≠ 0 then TsbkCheck.rejectMfg
  else if t.crc_valid = false then TsbkCheck.rejectCrc
  else
    match t.opcode with
    | none => TsbkCheck.rejectOpcode
    | some o => TsbkCheck.accepted o

/-- The `for (ch, tg) in updates` loop of the `GroupVoiceUpdate` arm
(recv.rs lines 163-168): try each pair in order; on the first success
resync and break; a failed attempt leaves the state unchanged and the
scan continues. -/
def follow_updates : RxState → List (Channel × TalkGroup) → RxState × List Output
  | s, [] => (s, [])
  | s, (ch, tg) :: rest =>
    match use_talkgroup s tg ch with
    | (s', out, true) => (s', out ++ [Output.resync])
    | (s', _, false) => follow_updates s' rest

/-- The message dispatch of `P25Receiver::handle_sample` (recv.rs lines
122-178), from the point where the external decoder has produced a
message event. -/
def handle_event (s : RxState) (event : MessageEvent) : RxState × List Output :=
  match event with
  | MessageEvent.Error _ => (s, [])
  | MessageEvent.PacketNID du =>
    match du with
    | DataUnit.VoiceLCTerminator =>
      (s, switch_control s ++ [Output.audioEndTransmission, Output.resync])
    | DataUnit.VoiceSimpleTerminator =>
      (s, switch_control s ++ [Output.audioEndTransmission, Output.resync])
    | _ => (s, [])
  | MessageEvent.VoiceHeader alg => handle_crypto s alg
  | MessageEvent.LinkControl _ => (s, [])
  | MessageEvent.CryptoControl alg => handle_crypto s alg
  | MessageEvent.LowSpeedDataFragment _ => (s, [])
  | MessageEvent.VoiceFrame vf => (s, [Output.audioVoiceFrame vf])
  | MessageEvent.TrunkingControl t =>
    match validate t with
    | TsbkCheck.accepted TSBKOpcode.GroupVoiceUpdate =>
      follow_updates s t.payload.updates
    | TsbkCheck.accepted TSBKOpcode.ChannelParamsUpdate =>
      ({ s with channels := s.channels.set t.payload.cpId (some t.payload.cpParams) }, [])
    | _ => (s, [])
  | MessageEvent.VoiceTerm _ => (s, [])

/-- One iteration of the `P25Receiver::run` loop at the decoded level:
either one decoded message out of a baseband sample (`handle_sample`),
or a `ReceiverEvent::SetControlFreq` command, which only overwrites
`control_freq`. -/
inductive RunEvent
  | decoded (e : MessageEvent)
  | setControlFreq (freq : Nat)
  deriving DecidableEq

/-- Dispatch of one `RunEvent` (the `match` in `P25Receiver::run`,
recv.rs lines 101-110, with the per-sample decode inlined). -/
def step (s : RxState) : RunEvent → RxState × List Output
  | RunEvent.decoded e => handle_event s e
  | RunEvent.setControlFreq freq => ({ s with control_freq := freq }, [])

/-- Run a finite list of events through `step`, accumulating outputs in
order.  Reachable states of the receiver are exactly the first
components of `run_events P25Receiver.new es`. -/
def run_events : RxState → List RunEvent → RxState × List Output
  | s, [] => (s, [])
  | s, e :: rest =>
    let p := step s e
    let q := run_events p.1 rest
    (q.1, p.2 ++ q.2)

/-- The frequency the tuner is parked on after a list of outputs: the
argument of the last `sdrSetFreq` sent to the SDR controller, or the
starting frequency if none was sent. -/
def tuned : Nat → List Output → Nat
  | f, [] => f
  | _, Output.sdrSetFreq g :: rest => tuned g rest
  | f, Output.uiSetFreq _ :: rest => tuned f rest
  | f, Output.uiSetTalkGroup _ :: rest => tuned f rest
  | f, Output.audioEndTransmission :: rest => tuned f rest
  | f, Output.audioVoiceFrame _ :: rest => tuned f rest
  | f, Output.resync :: rest => tuned f rest

/-- A concrete event trace from the initial state: set the control
frequency to 851, learn channel id 3, follow group 5 onto channel 3 via
a group voice update, then receive a voice-ended terminator. -/
def c1trace : List RunEvent :=
  [RunEvent.setControlFreq 851,
   RunEvent.decoded (MessageEvent.TrunkingControl
     ⟨0, true, some TSBKOpcode.ChannelParamsUpdate, ⟨[], 3, ⟨100, 10⟩⟩⟩),
   RunEvent.decoded (MessageEvent.TrunkingControl
     ⟨0, true, some TSBKOpcode.GroupVoiceUpdate,
      ⟨[(⟨3, 2⟩, TalkGroup.Other 5)], 0, ⟨0, 0⟩⟩⟩),
   RunEvent.decoded (MessageEvent.PacketNID DataUnit.VoiceLCTerminator)]

/-- C7: for every decoded packet-boundary marker whose data unit is a
voice-ended terminator (either terminator variant), and from any prior
state, the handler retunes to the stored control frequency (UI and SDR
`SetFreq`), sends exactly one end-of-transmission notification to the
audio subsystem, and forces decoder resynchronization; the state is not
changed. -/
theorem c7_voice_ended_terminator (s : RxState) (du : DataUnit)
    (h : du = DataUnit.VoiceLCTerminator ∨ du = DataUnit.VoiceSimpleTerminator) :
    handle_event s (MessageEvent.PacketNID du) =
      (s, [Output.uiSetFreq s.control_freq, Output.sdrSetFreq s.control_freq,
           Output.audioEndTransmission, Output.resync]) ∧
    (handle_event s (MessageEvent.PacketNID du)).2.count Output.audioEndTransmission = 1 := by
  rcases h with h | h <;> subst h <;>
    exact ⟨rfl, by simp [handle_event, switch_control, set_freq]⟩

/-- Witness for C7 at the initial state and the LC terminator. -/
theorem c7_voice_ended_terminator_witness :
    handle_event P25Receiver.new (MessageEvent.PacketNID DataUnit.VoiceLCTerminator) =
      (P25Receiver.new,
       [Output.uiSetFreq P25Receiver.new.control_freq,
        Output.sdrSetFreq P25Receiver.new.control_freq,
        Output.audioEndTransmission, Output.resync]) :=
  (c7_voice_ended_terminator P25Receiver.new DataUnit.VoiceLCTerminator (Or.inl rfl)).1

/-- C9: processing a `SetControlFreq` command updates only the stored
control frequency: no outputs are emitted (so no retune even while
following), `cur_talkgroup`, the channel table and the encrypted set are
unchanged, and the next return to control uses the new frequency. -/
theorem c9_set_control_freq (s : RxState) (freq : Nat) :
    step s (RunEvent.setControlFreq freq) = ({ s with control_freq := freq }, []) ∧
    (step s (RunEvent.setControlFreq freq)).1.cur_talkgroup = s.cur_talkgroup ∧
    (step s (RunEvent.setControlFreq freq)).1.channels = s.channels ∧
    (step s (RunEvent.setControlFreq freq)).1.encrypted = s.encrypted ∧
    switch_control (step s (RunEvent.setControlFreq freq)).1 =
      [Output.uiSetFreq freq, Output.sdrSetFreq freq] :=
  ⟨rfl, rfl, rfl, rfl, rfl⟩

/-- C4: trunking-control-block validation fires, in source order and
short-circuiting, on non-zero manufacturer code, then failed integrity
check, then unrecognized opcode; a block rejected by any of the three
checks produces no state change and no output. -/
theorem c4_tsbk_validation (s : RxState) (t : Tsbk) :
    (t.mfg ≠ 0 → validate t = TsbkCheck.rejectMfg) ∧
    (t.mfg = 0 → t.crc_valid = false → validate t = TsbkCheck.rejectCrc) ∧
    (t.mfg = 0 → t.crc_valid = true → t.opcode = none →
      validate t = TsbkCheck.rejectOpcode) ∧
    ((validate t = TsbkCheck.rejectMfg ∨ validate t = TsbkCheck.rejectCrc ∨
        validate t = TsbkCheck.rejectOpcode) →
      handle_event s (MessageEvent.TrunkingControl t) = (s, [])) := by
  refine ⟨?_, ?_, ?_, ?_⟩
  · intro h; simp [validate, h]
  · intro h1 h2; simp [validate, h1, h2]
  · intro h1 h2 h3; simp [validate, h1, h2, h3]
  · intro h
    rcases h with h | h | h <;> simp [handle_event, h]

/-- Witness for C4: a block with manufacturer code 1 whose payload would
decode to a valid group update is dropped with no state change. -/
theorem c4_tsbk_validation_witness :
    handle_event P25Receiver.new
      (MessageEvent.TrunkingControl
        ⟨1, true, some TSBKOpcode.GroupVoiceUpdate,
         ⟨[(⟨3, 2⟩, TalkGroup.Other 5)], 0, ⟨100, 10⟩⟩⟩) =
      (P25Receiver.new, []) :=
  (c4_tsbk_validation P25Receiver.new
      ⟨1, true, some TSBKOpcode.GroupVoiceUpdate,
       ⟨[(⟨3, 2⟩, TalkGroup.Other 5)], 0, ⟨100, 10⟩⟩⟩).2.2.2
    (Or.inl ((c4_tsbk_validation P25Receiver.new
      ⟨1, true, some TSBKOpcode.GroupVoiceUpdate,
       ⟨[(⟨3, 2⟩, TalkGroup.Other 5)], 0, ⟨100, 10⟩⟩⟩).1 (by decide)))

/-- C5: `use_talkgroup` rejects with no state change when the talkgroup
is a concrete group already in the encrypted set; otherwise rejects with
no state change when the channel's table entry is absent; otherwise sets
`cur_talkgroup` to the candidate, emits the computed frequency to UI and
SDR plus a talkgroup notification, and reports success; and the outputs
and the returned flag never depend on the current talkgroup. -/
theorem c5_use_talkgroup (s : RxState) (tg : TalkGroup) (ch : Channel) :
    (∀ x, tg = TalkGroup.Other x → x ∈ s.encrypted →
      use_talkgroup s tg ch = (s, [], false)) ∧
    (encCheck s tg = false → s.channels.getD ch.id none = none →
      use_talkgroup s tg ch = (s, [], false)) ∧
    (∀ p, encCheck s tg = false → s.channels.getD ch.id none = some p →
      use_talkgroup s tg ch =
        ({ s with cur_talkgroup := tg },
         [Output.uiSetFreq (p.rx_freq ch.number), Output.sdrSetFreq (p.rx_freq ch.number),
          Output.uiSetTalkGroup tg], true)) ∧
    (∀ tg', (use_talkgroup { s with cur_talkgroup := tg' } tg ch).2 =
      (use_talkgroup s tg ch).2) := by
  refine ⟨?_, ?_, ?_, ?_⟩
  · rintro x rfl hx
    simp [use_talkgroup, encCheck, hx]
  · intro h1 h2
    rw [List.getD_eq_getElem?_getD] at h2
    simp [use_talkgroup, h1, h2]
  · intro p h1 h2
    rw [List.getD_eq_getElem?_getD] at h2
    simp [use_talkgroup, h1, h2, set_freq]
  · intro tg'
    have henc : encCheck { s with cur_talkgroup := tg' } tg = encCheck s tg := by
      cases tg <;> rfl
    have hch : ({ s with cur_talkgroup := tg' } : RxState).channels = s.channels := rfl
    by_cases h1 : encCheck s tg
    · simp [use_talkgroup, henc, h1]
    · cases h2 : s.channels[ch.id]?.getD none <;>
        simp [use_talkgroup, henc, hch, h1, h2]

/-- Witness for C5: success on a known channel while already following a
different group (group 9), ending on group 7 at frequency 120. -/
theorem c5_use_talkgroup_witness :
    use_talkgroup
      { control_freq := 851, channels := (List.replicate chanCount none).set 3 (some ⟨100, 10⟩),
        cur_talkgroup := TalkGroup.Other 9, encrypted := ∅ }
      (TalkGroup.Other 7) ⟨3, 2⟩ =
      ({ control_freq := 851, channels := (List.replicate chanCount none).set 3 (some ⟨100, 10⟩),
         cur_talkgroup := TalkGroup.Other 7, encrypted := ∅ },
       [Output.uiSetFreq 120, Output.sdrSetFreq 120,
        Output.uiSetTalkGroup (TalkGroup.Other 7)], true) :=
  (c5_use_talkgroup
      { control_freq := 851, channels := (List.replicate chanCount none).set 3 (some ⟨100, 10⟩),
        cur_talkgroup := TalkGroup.Other 9, encrypted := ∅ }
      (TalkGroup.Other 7) ⟨3, 2⟩).2.2.1 ⟨100, 10⟩ (by decide) (by decide)

/-- C6: a non-unencrypted crypto algorithm observed (via voice header or
crypto control block) while `cur_talkgroup` is a concrete group retunes
to the stored control frequency, forces resynchronization, and inserts
that group into the encrypted set; the channel table is untouched; on
the unencrypted tag nothing changes at all. -/
theorem c6_crypto_detected (s : RxState) (alg : CryptoAlgorithm) :
    (alg = CryptoAlgorithm.Unencrypted → handle_crypto s alg = (s, [])) ∧
    (∀ x, alg ≠ CryptoAlgorithm.Unencrypted → s.cur_talkgroup = TalkGroup.Other x →
      handle_crypto s alg =
        ({ s with encrypted := insert x s.encrypted },
         [Output.uiSetFreq s.control_freq, Output.sdrSetFreq s.control_freq,
          Output.resync])) ∧
    (handle_crypto s alg).1.channels = s.channels ∧
    handle_event s (MessageEvent.VoiceHeader alg) = handle_crypto s alg ∧
    handle_event s (MessageEvent.CryptoControl alg) = handle_crypto s alg := by
  refine ⟨?_, ?_, ?_, rfl, rfl⟩
  · rintro rfl; rfl
  · intro x halg hcur
    cases alg with
    | Unencrypted => exact absurd rfl halg
    | Encrypted tag => simp [handle_crypto, hcur, switch_control, set_freq]
  · cases alg with
    | Unencrypted => rfl
    | Encrypted tag => cases h : s.cur_talkgroup <;> simp [handle_crypto, h]

/-- Witness for C6: crypto detected while following group 5 marks group
5 encrypted and retunes to the control frequency 851. -/
theorem c6_crypto_detected_witness :
    handle_crypto
      { control_freq := 851, channels := List.replicate chanCount none,
        cur_talkgroup := TalkGroup.Other 5, encrypted := ∅ }
      (CryptoAlgorithm.Encrypted 0) =
      ({ control_freq := 851, channels := List.replicate chanCount none,
         cur_talkgroup := TalkGroup.Other 5, encrypted := insert 5 ∅ },
       [Output.uiSetFreq 851, Output.sdrSetFreq 851, Output.resync]) :=
  (c6_crypto_detected
      { control_freq := 851, channels := List.replicate chanCount none,
        cur_talkgroup := TalkGroup.Other 5, encrypted := ∅ }
      (CryptoAlgorithm.Encrypted 0)).2.1 5 (by decide) rfl

/-- C10: for a candidate pair whose talkgroup is not a concrete group
(the default variant), `use_talkgroup` makes no encrypted-set check: it
succeeds whenever the channel's entry is present (for any encrypted
set), setting `cur_talkgroup` to the default variant; and a subsequent
crypto detection in that state retunes to control without inserting
anything into the encrypted set. -/
theorem c10_default_talkgroup (s : RxState) (ch : Channel) (p : ChannelParams)
    (h : s.channels.getD ch.id none = some p) :
    use_talkgroup s TalkGroup.Default ch =
      ({ s with cur_talkgroup := TalkGroup.Default },
       [Output.uiSetFreq (p.rx_freq ch.number), Output.sdrSetFreq (p.rx_freq ch.number),
        Output.uiSetTalkGroup TalkGroup.Default], true) ∧
    (∀ tag, handle_crypto { s with cur_talkgroup := TalkGroup.Default }
        (CryptoAlgorithm.Encrypted tag) =
      ({ s with cur_talkgroup := TalkGroup.Default },
       [Output.uiSetFreq s.control_freq, Output.sdrSetFreq s.control_freq,
        Output.resync])) := by
  constructor
  · rw [List.getD_eq_getElem?_getD] at h
    simp [use_talkgroup, encCheck, h, set_freq]
  · intro tag
    simp [handle_crypto, switch_control, set_freq]

/-- Witness for C10: the default talkgroup is followed onto channel 3
even though group 7 is marked encrypted, and crypto detection there
leaves the encrypted set at just group 7. -/
theorem c10_default_talkgroup_witness :
    use_talkgroup
      { control_freq := 851, channels := (List.replicate chanCount none).set 3 (some ⟨100, 10⟩),
        cur_talkgroup := TalkGroup.Other 9, encrypted := insert 7 ∅ }
      TalkGroup.Default ⟨3, 2⟩ =
      ({ control_freq := 851, channels := (List.replicate chanCount none).set 3 (some ⟨100, 10⟩),
         cur_talkgroup := TalkGroup.Default, encrypted := insert 7 ∅ },
       [Output.uiSetFreq 120, Output.sdrSetFreq 120,
        Output.uiSetTalkGroup TalkGroup.Default], true) :=
  (c10_default_talkgroup
      { control_freq := 851, channels := (List.replicate chanCount none).set 3 (some ⟨100, 10⟩),
        cur_talkgroup := TalkGroup.Other 9, encrypted := insert 7 ∅ }
      ⟨3, 2⟩ ⟨100, 10⟩ (by decide)).1

/-- A `use_talkgroup` call that reports failure leaves the state
unchanged and emits nothing (both early returns of the source). -/
theorem use_talkgroup_false (s : RxState) (tg : TalkGroup) (ch : Channel)
    (h : (use_talkgroup s tg ch).2.2 = false) :
    use_talkgroup s tg ch = (s, [], false) := by
  by_cases h1 : encCheck s tg
  · simp [use_talkgroup, h1]
  · cases h2 : s.channels[ch.id]?.getD none with
    | none => simp [use_talkgroup, h1, h2]
    | some p =>
      exfalso
      simp [use_talkgroup, h1, h2] at h

/-- `use_talkgroup` never changes the encrypted set. -/
theorem use_talkgroup_encrypted (s : RxState) (tg : TalkGroup) (ch : Channel) :
    (use_talkgroup s tg ch).1.encrypted = s.encrypted := by
  by_cases h1 : encCheck s tg
  · simp [use_talkgroup, h1]
  · cases h2 : s.channels[ch.id]?.getD none <;> simp [use_talkgroup, h1, h2]

/-- C8: a channel id whose table entry was never set fails the frequency
lookup (in particular every lookup fails in the initial state); after a
validated channel-parameters update writes an entry, a lookup for a
channel with that id succeeds and returns exactly the frequency implied
by the written parameters and the channel's offset number; a later write
to the same id overwrites the previous entry. -/
theorem c8_channel_table (s : RxState) (ch : Channel) (p q : ChannelParams) (t : Tsbk) :
    lookup_frequency P25Receiver.new ch = none ∧
    (s.channels.getD ch.id none = none → lookup_frequency s ch = none) ∧
    (t.mfg = 0 → t.crc_valid = true → t.opcode = some TSBKOpcode.ChannelParamsUpdate →
      t.payload.cpId = ch.id → ch.id < s.channels.length →
      lookup_frequency (handle_event s (MessageEvent.TrunkingControl t)).1 ch =
        some (t.payload.cpParams.rx_freq ch.number)) ∧
    (s.channels.set ch.id (some p)).set ch.id (some q) = s.channels.set ch.id (some q) := by
  refine ⟨?_, ?_, ?_, List.set_set _ _ _ _⟩
  · have h0 : (List.replicate chanCount (none : Option ChannelParams)).getD ch.id none
        = none := by
      rw [List.getD_eq_getElem?_getD, List.getElem?_replicate]
      split <;> rfl
    simp only [lookup_frequency, P25Receiver.new]
    rw [h0]
  · intro h
    simp only [lookup_frequency]
    rw [h]
  · intro h1 h2 h3 h4 h5
    have hv : validate t = TsbkCheck.accepted TSBKOpcode.ChannelParamsUpdate := by
      simp [validate, h1, h2, h3]
    have hset : (s.channels.set t.payload.cpId (some t.payload.cpParams)).getD ch.id none
        = some t.payload.cpParams := by
      rw [h4, List.getD_eq_getElem?_getD, List.getElem?_set_self',
        List.getElem?_eq_getElem h5]
      rfl
    simp only [handle_event, hv, lookup_frequency]
    rw [hset]

/-- Witness for C8: after learning parameters (base 100, spacing 10) for
channel id 3, the lookup for offset number 2 returns frequency 120. -/
theorem c8_channel_table_witness :
    lookup_frequency
      (handle_event P25Receiver.new
        (MessageEvent.TrunkingControl
          ⟨0, true, some TSBKOpcode.ChannelParamsUpdate, ⟨[], 3, ⟨100, 10⟩⟩⟩)).1
      ⟨3, 2⟩ = some 120 :=
  (c8_channel_table P25Receiver.new ⟨3, 2⟩ ⟨0, 0⟩ ⟨0, 0⟩
      ⟨0, true, some TSBKOpcode.ChannelParamsUpdate, ⟨[], 3, ⟨100, 10⟩⟩⟩).2.2.1
    rfl rfl rfl rfl (by decide)

/-- C2: scanning a group-traffic-update list `[(chA,g1),(chB,g2),...]`
where chA's table entry is absent, chB's entry is present and g2 passes
the encryption check: the scan skips the first pair and succeeds on the
second, ending with `cur_talkgroup = g2`, a retune to chB's computed
frequency and a resync, and never examines the remaining pairs (the
result is the same for every tail); and a scan in which every pair fails
changes nothing and emits nothing. -/
theorem c2_group_update_scan (s : RxState) (chA chB : Channel) (g1 g2 : TalkGroup)
    (rest : List (Channel × TalkGroup)) (p : ChannelParams)
    (hA : s.channels.getD chA.id none = none)
    (hB : s.channels.getD chB.id none = some p)
    (hg2 : encCheck s g2 = false) :
    follow_updates s ((chA, g1) :: (chB, g2) :: rest) =
      ({ s with cur_talkgroup := g2 },
       [Output.uiSetFreq (p.rx_freq chB.number), Output.sdrSetFreq (p.rx_freq chB.number),
        Output.uiSetTalkGroup g2, Output.resync]) ∧
    (∀ l, (∀ pr ∈ l, (use_talkgroup s pr.2 pr.1).2.2 = false) →
      follow_updates s l = (s, [])) := by
  constructor
  · have hfailA : use_talkgroup s g1 chA = (s, [], false) := by
      rw [List.getD_eq_getElem?_getD] at hA
      by_cases h1 : encCheck s g1
      · simp [use_talkgroup, h1]
      · simp [use_talkgroup, h1, hA]
    have hsuccB : use_talkgroup s g2 chB =
        ({ s with cur_talkgroup := g2 },
         [Output.uiSetFreq (p.rx_freq chB.number), Output.sdrSetFreq (p.rx_freq chB.number),
          Output.uiSetTalkGroup g2], true) := by
      rw [List.getD_eq_getElem?_getD] at hB
      simp [use_talkgroup, hg2, hB, set_freq]
    simp [follow_updates, hfailA, hsuccB]
  · intro l hl
    induction l with
    | nil => rfl
    | cons pr rest' ih =>
      obtain ⟨ch', tg'⟩ := pr
      have hf := use_talkgroup_false s tg' ch' (hl (ch', tg') (List.mem_cons_self _ _))
      simp only [follow_updates]
      rw [hf]
      exact ih (fun pr hpr => hl pr (List.mem_cons_of_mem _ hpr))

/-- Witness for C2: with channel id 3 known at (base 100, spacing 10),
the pair on unknown channel id 4 is skipped, group 7 is followed on
channel 3 at frequency 120, and the third pair is never examined. -/
theorem c2_group_update_scan_witness :
    follow_updates
      { control_freq := 851, channels := (List.replicate chanCount none).set 3 (some ⟨100, 10⟩),
        cur_talkgroup := TalkGroup.Default, encrypted := ∅ }
      [(⟨4, 0⟩, TalkGroup.Other 1), (⟨3, 2⟩, TalkGroup.Other 7), (⟨2, 0⟩, TalkGroup.Other 2)] =
      ({ control_freq := 851, channels := (List.replicate chanCount none).set 3 (some ⟨100, 10⟩),
         cur_talkgroup := TalkGroup.Other 7, encrypted := ∅ },
       [Output.uiSetFreq 120, Output.sdrSetFreq 120,
        Output.uiSetTalkGroup (TalkGroup.Other 7), Output.resync]) :=
  (c2_group_update_scan
      { control_freq := 851, channels := (List.replicate chanCount none).set 3 (some ⟨100, 10⟩),
        cur_talkgroup := TalkGroup.Default, encrypted := ∅ }
      ⟨4, 0⟩ ⟨3, 2⟩ (TalkGroup.Other 1) (TalkGroup.Other 7)
      [(⟨2, 0⟩, TalkGroup.Other 2)] ⟨100, 10⟩
      (by decide) (by decide) (by decide)).1

/-- The group-update scan never changes the encrypted set. -/
theorem follow_updates_encrypted (s : RxState) (l : List (Channel × TalkGroup)) :
    (follow_updates s l).1.encrypted = s.encrypted := by
  induction l generalizing s with
  | nil => rfl
  | cons pr rest ih =>
    obtain ⟨ch, tg⟩ := pr
    simp only [follow_updates]
    rcases h : use_talkgroup s tg ch with ⟨s', out, b⟩
    have henc : s'.encrypted = s.encrypted := by
      have hu := use_talkgroup_encrypted s tg ch
      rw [h] at hu
      exact hu
    cases b
    · exact (ih s').trans henc
    · exact henc

/-- `handle_crypto` can only grow the encrypted set. -/
theorem handle_crypto_encrypted_subset (s : RxState) (alg : CryptoAlgorithm) :
    s.encrypted ⊆ (handle_crypto s alg).1.encrypted := by
  cases alg with
  | Unencrypted => exact subset_rfl
  | Encrypted tag =>
    simp only [handle_crypto]
    cases h : s.cur_talkgroup with
    | Default => exact subset_rfl
    | Other x => exact Finset.subset_insert _ _

/-- One step of the receiver loop can only grow the encrypted set. -/
theorem step_encrypted_subset (s : RxState) (e : RunEvent) :
    s.encrypted ⊆ (step s e).1.encrypted := by
  cases e with
  | setControlFreq f => exact subset_rfl
  | decoded m =>
    cases m with
    | Error e => exact subset_rfl
    | PacketNID du => cases du <;> exact subset_rfl
    | VoiceHeader alg => exact handle_crypto_encrypted_subset s alg
    | LinkControl lc => exact subset_rfl
    | CryptoControl alg => exact handle_crypto_encrypted_subset s alg
    | LowSpeedDataFragment d => exact subset_rfl
    | VoiceFrame vf => exact subset_rfl
    | VoiceTerm vt => exact subset_rfl
    | TrunkingControl t =>
      show s.encrypted ⊆ (handle_event s (MessageEvent.TrunkingControl t)).1.encrypted
      cases hv : validate t with
      | rejectMfg => simp [handle_event, hv]
      | rejectCrc => simp [handle_event, hv]
      | rejectOpcode => simp [handle_event, hv]
      | accepted op =>
        cases op with
        | GroupVoiceUpdate =>
          simp only [handle_event, hv]
          rw [follow_updates_encrypted]
        | ChannelParamsUpdate => simp [handle_event, hv]
        | OtherOpcode c => simp [handle_event, hv]

/-- A whole run of the receiver loop can only grow the encrypted set. -/
theorem run_events_encrypted_subset (s : RxState) (es : List RunEvent) :
    s.encrypted ⊆ (run_events s es).1.encrypted := by
  induction es generalizing s with
  | nil => exact subset_rfl
  | cons e rest ih =>
    exact Finset.Subset.trans (step_encrypted_subset s e) (ih (step s e).1)

/-- C3: once a concrete group identifier is in the encrypted set it is
still in it after every sequence of subsequent events, every later
`use_talkgroup` call with that identifier fails with no state change and
no output regardless of channel validity, and no single step ever
removes an element from the set. -/
theorem c3_encrypted_persistence (s : RxState) (x : Nat) (hx : x ∈ s.encrypted) :
    (∀ es, x ∈ (run_events s es).1.encrypted) ∧
    (∀ es ch, use_talkgroup (run_events s es).1 (TalkGroup.Other x) ch =
      ((run_events s es).1, [], false)) ∧
    (∀ e, s.encrypted ⊆ (step s e).1.encrypted) := by
  have hmem : ∀ es, x ∈ (run_events s es).1.encrypted :=
    fun es => run_events_encrypted_subset s es hx
  refine ⟨hmem, ?_, step_encrypted_subset s⟩
  intro es ch
  have h1 : encCheck (run_events s es).1 (TalkGroup.Other x) = true := by
    simp [encCheck, hmem es]
  simp [use_talkgroup, h1]

/-- Witness for C3: with group 5 marked encrypted, after a control-freq
change and a terminator the follow attempt for group 5 on the known
channel 3 still fails with no state change. -/
theorem c3_encrypted_persistence_witness :
    use_talkgroup
      (run_events
        { control_freq := 851,
          channels := (List.replicate chanCount none).set 3 (some ⟨100, 10⟩),
          cur_talkgroup := TalkGroup.Default, encrypted := insert 5 ∅ }
        [RunEvent.setControlFreq 900,
         RunEvent.decoded (MessageEvent.PacketNID DataUnit.VoiceLCTerminator)]).1
      (TalkGroup.Other 5) ⟨3, 2⟩ =
      ((run_events
        { control_freq := 851,
          channels := (List.replicate chanCount none).set 3 (some ⟨100, 10⟩),
          cur_talkgroup := TalkGroup.Default, encrypted := insert 5 ∅ }
        [RunEvent.setControlFreq 900,
         RunEvent.decoded (MessageEvent.PacketNID DataUnit.VoiceLCTerminator)]).1,
       [], false) :=
  (c3_encrypted_persistence
      { control_freq := 851,
        channels := (List.replicate chanCount none).set 3 (some ⟨100, 10⟩),
        cur_talkgroup := TalkGroup.Default, encrypted := insert 5 ∅ }
      5 (by decide)).2.1
    [RunEvent.setControlFreq 900,
     RunEvent.decoded (MessageEvent.PacketNID DataUnit.VoiceLCTerminator)]
    ⟨3, 2⟩

/-- C1 counterexample: after following group 5 and then receiving a
voice-ended terminator (a T1 return to control), the tuner is parked on
the stored control frequency but `cur_talkgroup` is still the concrete
group 5, not the unassigned value — the claimed invariant fails in this
reachable state. -/
theorem c1_parking_counterexample :
    tuned P25Receiver.new.control_freq (run_events P25Receiver.new c1trace).2 =
      (run_events P25Receiver.new c1trace).1.control_freq ∧
    (run_events P25Receiver.new c1trace).1.cur_talkgroup = TalkGroup.Other 5 ∧
    (run_events P25Receiver.new c1trace).1.cur_talkgroup ≠ TalkGroup.Default := by
  exact ⟨by decide, by decide, by decide⟩

/-- C1 amended: `cur_talkgroup` is unassigned in the initial state, and
a T1 return to control on a voice-ended terminator retunes to the stored
control frequency while leaving the entire state — `cur_talkgroup`
included — unchanged (so after a T1 from a followed group the receiver
is parked on the control frequency with `cur_talkgroup` still holding
that group). -/
theorem c1_return_to_control (s : RxState) (f : Nat) (du : DataUnit)
    (h : du = DataUnit.VoiceLCTerminator ∨ du = DataUnit.VoiceSimpleTerminator) :
    P25Receiver.new.cur_talkgroup = TalkGroup.Default ∧
    (handle_event s (MessageEvent.PacketNID du)).1 = s ∧
    tuned f (handle_event s (MessageEvent.PacketNID du)).2 = s.control_freq := by
  rcases h with h | h <;> subst h <;>
    exact ⟨rfl, rfl, by simp [handle_event, switch_control, set_freq, tuned]⟩

/-- Witness for the amended C1 at a state that is following group 5 on a
traffic frequency of 120 with control frequency 851. -/
theorem c1_return_to_control_witness :
    P25Receiver.new.cur_talkgroup = TalkGroup.Default ∧
    (handle_event
        { control_freq := 851, channels := List.replicate chanCount none,
          cur_talkgroup := TalkGroup.Other 5, encrypted := ∅ }
        (MessageEvent.PacketNID DataUnit.VoiceLCTerminator)).1 =
      { control_freq := 851, channels := List.replicate chanCount none,
        cur_talkgroup := TalkGroup.Other 5, encrypted := ∅ } ∧
    tuned 120
      (handle_event
        { control_freq := 851, channels := List.replicate chanCount none,
          cur_talkgroup := TalkGroup.Other 5, encrypted := ∅ }
        (MessageEvent.PacketNID DataUnit.VoiceLCTerminator)).2 = 851 :=
  c1_return_to_control
    { control_freq := 851, channels := List.replicate chanCount none,
      cur_talkgroup := TalkGroup.Other 5, encrypted := ∅ }
    120 DataUnit.VoiceLCTerminator (Or.inl rfl)

end P25Rx
